import Mathlib

/-!
Shallow embedding of the uplink request-execution interfaces
(`uplink/clients/io/interfaces.py`) and of the argument-annotation handling
in `uplink/arguments.py`, together with theorems settling the frozen claims
about them.

Modelling conventions:
* A Python method that may raise is embedded as a Lean function returning
  `Except PyError _`; `raise E` becomes `.error e`.
* A Python class whose methods may be overridden in subclasses is embedded as
  a structure of `Option`-valued override slots; attribute lookup (subclass
  override, else base-class body) becomes a `match` on the slot, with the
  `none` branch holding the base-class body verbatim.
* Opaque Python objects (requests, responses, durations, ...) are type
  parameters; strings interpolated into messages are `String`.
-/

namespace Uplink

/-- The exception triple `(exc_type, exc_val, exc_tb)` that Python passes
around; the three components are opaque to the engine, so we model each by a
`String` tag. -/
structure ExcInfo where
  excType : String
  excVal : String
  excTb : String
deriving DecidableEq, Repr

/-- The error outcomes the embedded methods can produce: an
`IllegalRequestStateTransition(state, transition)` (carrying the state's
display string and the attempted transition name), a bare
`NotImplementedError`, or a re-raised exception triple. -/
inductive PyError where
  | illegalTransition (state : String) (transition : String)
  | notImplemented
  | raised (exc : ExcInfo)
deriving DecidableEq, Repr

/-- Embeds `IllegalRequestStateTransition.__str__`:
`f"Illegal transition [{transition}] from request state [{state}]: this is
possibly due to a badly designed RequestTemplate."`. -/
def IllegalRequestStateTransition.message (state transition : String) : String :=
  "Illegal transition [" ++ transition ++ "] from request state [" ++ state
    ++ "]: this is possibly due to a badly designed RequestTemplate."

/-- `msg` identifies `sub`: `sub` occurs verbatim inside `msg`. -/
def identifies (msg sub : String) : Prop :=
  ∃ p q, msg = p ++ sub ++ q

/-- A `RequestState` subclass: `name` is the state's display string
(`str(self)`, interpolated into the exception message), and each slot is
`some f` when the subclass overrides the corresponding method, `none` when it
inherits the base-class body from `interfaces.RequestState`. -/
structure RequestStateImpl (Req Dur Resp Exec St : Type) where
  name : String
  prepareOv : Option (Req → Except PyError St)
  sendOv : Option (Req → Except PyError St)
  sleepOv : Option (Dur → Except PyError St)
  finishOv : Option (Resp → Except PyError St)
  failOv : Option (ExcInfo → Except PyError St)
  executeOv : Option (Exec → Except PyError St)
  requestOv : Option (Except PyError Req)

variable {Req Dur Resp Exec St : Type}

/-- `RequestState.prepare`: base body is
`raise IllegalRequestStateTransition(self, "prepare")`. -/
def RequestState.prepare (s : RequestStateImpl Req Dur Resp Exec St) (request : Req) :
    Except PyError St :=
  match s.prepareOv with
  | some f => f request
  | none => .error (.illegalTransition s.name "prepare")

/-- `RequestState.send`: base body is
`raise IllegalRequestStateTransition(self, "send")`. -/
def RequestState.send (s : RequestStateImpl Req Dur Resp Exec St) (request : Req) :
    Except PyError St :=
  match s.sendOv with
  | some f => f request
  | none => .error (.illegalTransition s.name "send")

/-- `RequestState.sleep`: base body is
`raise IllegalRequestStateTransition(self, "sleep")`. -/
def RequestState.sleep (s : RequestStateImpl Req Dur Resp Exec St) (duration : Dur) :
    Except PyError St :=
  match s.sleepOv with
  | some f => f duration
  | none => .error (.illegalTransition s.name "sleep")

/-- `RequestState.finish`: base body is
`raise IllegalRequestStateTransition(self, "finish")`. -/
def RequestState.finish (s : RequestStateImpl Req Dur Resp Exec St) (response : Resp) :
    Except PyError St :=
  match s.finishOv with
  | some f => f response
  | none => .error (.illegalTransition s.name "finish")

/-- `RequestState.fail`: base body is
`raise IllegalRequestStateTransition(self, "fail")`. -/
def RequestState.fail (s : RequestStateImpl Req Dur Resp Exec St) (exc : ExcInfo) :
    Except PyError St :=
  match s.failOv with
  | some f => f exc
  | none => .error (.illegalTransition s.name "fail")

/-- `RequestState.execute`: base body is `raise NotImplementedError`. -/
def RequestState.execute (s : RequestStateImpl Req Dur Resp Exec St) (execution : Exec) :
    Except PyError St :=
  match s.executeOv with
  | some f => f execution
  | none => .error .notImplemented

/-- `RequestState.request` property: base body is `raise NotImplementedError`. -/
def RequestState.request (s : RequestStateImpl Req Dur Resp Exec St) :
    Except PyError Req :=
  match s.requestOv with
  | some r => r
  | none => .error .notImplemented

theorem IllegalRequestStateTransition.message_identifies (state transition : String) :
    identifies (IllegalRequestStateTransition.message state transition) transition ∧
      identifies (IllegalRequestStateTransition.message state transition) state := by
  constructor
  · exact ⟨"Illegal transition [",
      "] from request state [" ++ state
        ++ "]: this is possibly due to a badly designed RequestTemplate.",
      by simp [IllegalRequestStateTransition.message, String.append_assoc]⟩
  · exact ⟨"Illegal transition [" ++ transition ++ "] from request state [",
      "]: this is possibly due to a badly designed RequestTemplate.",
      by simp [IllegalRequestStateTransition.message, String.append_assoc]⟩

/-- Claim C1: on a `RequestState` that does not override a given lifecycle
operation among `prepare`, `send`, `sleep`, `finish`, `fail`, calling that
operation with any argument raises `IllegalRequestStateTransition`, and the
exception's message identifies both the attempted operation and the current
state. -/
theorem requestState_default_ops_raise_illegal_transition
    (s : RequestStateImpl Req Dur Resp Exec St)
    (request : Req) (duration : Dur) (response : Resp) (exc : ExcInfo) :
    (s.prepareOv = none →
      RequestState.prepare s request = .error (.illegalTransition s.name "prepare") ∧
      identifies (IllegalRequestStateTransition.message s.name "prepare") "prepare" ∧
      identifies (IllegalRequestStateTransition.message s.name "prepare") s.name) ∧
    (s.sendOv = none →
      RequestState.send s request = .error (.illegalTransition s.name "send") ∧
      identifies (IllegalRequestStateTransition.message s.name "send") "send" ∧
      identifies (IllegalRequestStateTransition.message s.name "send") s.name) ∧
    (s.sleepOv = none →
      RequestState.sleep s duration = .error (.illegalTransition s.name "sleep") ∧
      identifies (IllegalRequestStateTransition.message s.name "sleep") "sleep" ∧
      identifies (IllegalRequestStateTransition.message s.name "sleep") s.name) ∧
    (s.finishOv = none →
      RequestState.finish s response = .error (.illegalTransition s.name "finish") ∧
      identifies (IllegalRequestStateTransition.message s.name "finish") "finish" ∧
      identifies (IllegalRequestStateTransition.message s.name "finish") s.name) ∧
    (s.failOv = none →
      RequestState.fail s exc = .error (.illegalTransition s.name "fail") ∧
      identifies (IllegalRequestStateTransition.message s.name "fail") "fail" ∧
      identifies (IllegalRequestStateTransition.message s.name "fail") s.name) := by
  refine ⟨fun h => ?_, fun h => ?_, fun h => ?_, fun h => ?_, fun h => ?_⟩ <;>
    refine ⟨?_, (IllegalRequestStateTransition.message_identifies s.name _).1,
      (IllegalRequestStateTransition.message_identifies s.name _).2⟩ <;>
    simp [RequestState.prepare, RequestState.send, RequestState.sleep,
      RequestState.finish, RequestState.fail, h]

/-- A `RequestState` subclass with no overrides at all, at concrete types:
every method falls back to the `interfaces.RequestState` body. -/
def bareState : RequestStateImpl Unit Unit Unit Unit Unit :=
  ⟨"BareState", none, none, none, none, none, none, none⟩

theorem requestState_default_ops_raise_illegal_transition_witness :
    (RequestState.prepare bareState () = .error (.illegalTransition "BareState" "prepare") ∧
      identifies (IllegalRequestStateTransition.message "BareState" "prepare") "prepare" ∧
      identifies (IllegalRequestStateTransition.message "BareState" "prepare") "BareState") ∧
    (RequestState.send bareState () = .error (.illegalTransition "BareState" "send") ∧
      identifies (IllegalRequestStateTransition.message "BareState" "send") "send" ∧
      identifies (IllegalRequestStateTransition.message "BareState" "send") "BareState") := by
  have h := requestState_default_ops_raise_illegal_transition bareState () () ()
    ⟨"T", "V", "TB"⟩
  exact ⟨h.1 rfl, h.2.1 rfl⟩

/-- Claim C8: the base `RequestState.execute` and the base `request` property
raise `NotImplementedError`, not `IllegalRequestStateTransition`; only the
five lifecycle operations signal an illegal state transition. -/
theorem requestState_execute_not_illegal_transition
    (s : RequestStateImpl Req Dur Resp Exec St) (execution : Exec)
    (request : Req) (duration : Dur) (response : Resp) (exc : ExcInfo)
    (hexec : s.executeOv = none) (hreq : s.requestOv = none)
    (hall : s.prepareOv = none ∧ s.sendOv = none ∧ s.sleepOv = none ∧
      s.finishOv = none ∧ s.failOv = none) :
    RequestState.execute s execution = .error .notImplemented ∧
    RequestState.request s = .error .notImplemented ∧
    (∀ state transition, PyError.notImplemented ≠ .illegalTransition state transition) ∧
    RequestState.prepare s request = .error (.illegalTransition s.name "prepare") ∧
    RequestState.send s request = .error (.illegalTransition s.name "send") ∧
    RequestState.sleep s duration = .error (.illegalTransition s.name "sleep") ∧
    RequestState.finish s response = .error (.illegalTransition s.name "finish") ∧
    RequestState.fail s exc = .error (.illegalTransition s.name "fail") := by
  obtain ⟨h1, h2, h3, h4, h5⟩ := hall
  refine ⟨?_, ?_, ?_, ?_, ?_, ?_, ?_, ?_⟩ <;>
    simp [RequestState.execute, RequestState.request, RequestState.prepare,
      RequestState.send, RequestState.sleep, RequestState.finish, RequestState.fail,
      hexec, hreq, h1, h2, h3, h4, h5]

theorem requestState_execute_not_illegal_transition_witness :
    RequestState.execute bareState () = .error .notImplemented ∧
    RequestState.request bareState = .error .notImplemented ∧
    (∀ state transition, PyError.notImplemented ≠ .illegalTransition state transition) ∧
    RequestState.prepare bareState () = .error (.illegalTransition "BareState" "prepare") ∧
    RequestState.send bareState () = .error (.illegalTransition "BareState" "send") ∧
    RequestState.sleep bareState () = .error (.illegalTransition "BareState" "sleep") ∧
    RequestState.finish bareState () = .error (.illegalTransition "BareState" "finish") ∧
    RequestState.fail bareState ⟨"T", "V", "TB"⟩ =
      .error (.illegalTransition "BareState" "fail") :=
  requestState_execute_not_illegal_transition bareState () () () () ⟨"T", "V", "TB"⟩
    rfl rfl ⟨rfl, rfl, rfl, rfl, rfl⟩

/-- A `RequestTemplate` subclass: each hook slot is `some f` when the subclass
overrides the hook, `none` when it inherits the base body from
`interfaces.RequestTemplate`. `T` is the (opaque) type of transitions from
`uplink.clients.io.transitions`; a hook returns `Option T`, where `none` is
Python's `None` (fall back to the default behavior). -/
structure RequestTemplateImpl (Req Resp T : Type) where
  beforeRequestOv : Option (Req → Option T)
  afterResponseOv : Option (Req → Resp → Option T)
  afterExceptionOv : Option (Req → ExcInfo → Option T)

variable {T : Type}

/-- `RequestTemplate.before_request`: the base body is empty (a bare
docstring), so it returns `None`. -/
def RequestTemplate.before_request (t : RequestTemplateImpl Req Resp T) (request : Req) :
    Option T :=
  match t.beforeRequestOv with
  | some f => f request
  | none => none

/-- `RequestTemplate.after_response`: the base body is empty (a bare
docstring), so it returns `None`. -/
def RequestTemplate.after_response (t : RequestTemplateImpl Req Resp T)
    (request : Req) (response : Resp) : Option T :=
  match t.afterResponseOv with
  | some f => f request response
  | none => none

/-- `RequestTemplate.after_exception`: the base body is empty (a bare
docstring), so it returns `None`. -/
def RequestTemplate.after_exception (t : RequestTemplateImpl Req Resp T)
    (request : Req) (exc : ExcInfo) : Option T :=
  match t.afterExceptionOv with
  | some f => f request exc
  | none => none

/-- Claim C2: for every request, response, and exception triple, the base
`RequestTemplate` hooks `before_request`, `after_response`, and
`after_exception` each return `None`; a template overriding none of the hooks
therefore never emits a transition. -/
theorem requestTemplate_default_hooks_return_none
    (t : RequestTemplateImpl Req Resp T) (request : Req) (response : Resp)
    (exc : ExcInfo)
    (hb : t.beforeRequestOv = none) (hr : t.afterResponseOv = none)
    (he : t.afterExceptionOv = none) :
    RequestTemplate.before_request t request = none ∧
    RequestTemplate.after_response t request response = none ∧
    RequestTemplate.after_exception t request exc = none := by
  refine ⟨?_, ?_, ?_⟩ <;>
    simp [RequestTemplate.before_request, RequestTemplate.after_response,
      RequestTemplate.after_exception, hb, hr, he]

/-- A template overriding no hook, at concrete types. -/
def bareTemplate : RequestTemplateImpl Unit Unit Unit := ⟨none, none, none⟩

theorem requestTemplate_default_hooks_return_none_witness :
    RequestTemplate.before_request bareTemplate () = none ∧
    RequestTemplate.after_response bareTemplate () () = none ∧
    RequestTemplate.after_exception bareTemplate () ⟨"T", "V", "TB"⟩ = none :=
  requestTemplate_default_hooks_return_none bareTemplate () () ⟨"T", "V", "TB"⟩
    rfl rfl rfl

/-- Modelled from the spec: `uplink.compat.reraise` (module `uplink/compat.py`
is not in the source tree). Per the spec's propagation policy, a terminal
`Fail` is never swallowed: re-raising propagates the given exception triple to
the caller, so the call never produces a normal return value. -/
def reraise (α : Type) (excType excVal excTb : String) : Except PyError α :=
  .error (.raised ⟨excType, excVal, excTb⟩)

/-- `IOStrategy.fail`: the base body is
`compat.reraise(exc_type, exc_val, exc_tb)`. -/
def IOStrategy.fail (α : Type) (excType excVal excTb : String) : Except PyError α :=
  reraise α excType excVal excTb

/-- Claim C3: for every exception triple, the default `IOStrategy.fail`
re-raises the given exception to the caller and never returns normally. -/
theorem ioStrategy_fail_reraises (α : Type) (excType excVal excTb : String) :
    IOStrategy.fail α excType excVal excTb =
      .error (.raised ⟨excType, excVal, excTb⟩) ∧
    ∀ a : α, IOStrategy.fail α excType excVal excTb ≠ .ok a := by
  refine ⟨rfl, fun a h => ?_⟩
  simp [IOStrategy.fail, reraise] at h

/-- An `Executable` subclass, embedded as its `execute` override: `execute`
advances an execution (of opaque state type `σ`) by one step and produces a
step result of type `α`. The base `Executable.execute` raises
`NotImplementedError`, so a usable subclass always supplies the override. -/
structure ExecutableImpl (σ α : Type) where
  execute : σ → σ × α

/-- `Executable.__next__`: the body is `return self.execute()`. -/
def Executable.dunder_next {σ α : Type} (e : ExecutableImpl σ α) (s : σ) : σ × α :=
  e.execute s

/-- `Executable.next`: the class attribute alias `next = __next__`. -/
def Executable.next {σ α : Type} (e : ExecutableImpl σ α) (s : σ) : σ × α :=
  Executable.dunder_next e s

/-- Claim C4: each call to `__next__` (and to its alias `next`) returns
exactly the result of one call to `execute`, performing exactly that one
step's effect on the execution state. -/
theorem executable_next_is_one_execute {σ α : Type} (e : ExecutableImpl σ α) (s : σ) :
    Executable.dunder_next e s = e.execute s ∧
    Executable.next e s = e.execute s :=
  ⟨rfl, rfl⟩

/-- The methods the `Client` class declares (in source order); the class body
declares exactly `send` and `apply_callback` and nothing else. -/
def Client.methods : List String := ["send", "apply_callback"]

/-- A `Client` subclass: override slots for its two methods; `none` means the
base body (`raise NotImplementedError`) is inherited. `apply_callback` takes a
callable and a response and produces a value of type `γ`. -/
structure ClientImpl (Req Resp γ : Type) where
  sendOv : Option (Req → Except PyError Resp)
  applyCallbackOv : Option ((Resp → γ) → Resp → Except PyError γ)

variable {γ : Type}

/-- `Client.send`: base body is `raise NotImplementedError`. -/
def Client.send (c : ClientImpl Req Resp γ) (request : Req) : Except PyError Resp :=
  match c.sendOv with
  | some f => f request
  | none => .error .notImplemented

/-- `Client.apply_callback`: base body is `raise NotImplementedError`. -/
def Client.apply_callback (c : ClientImpl Req Resp γ) (callback : Resp → γ)
    (response : Resp) : Except PyError γ :=
  match c.applyCallbackOv with
  | some f => f callback response
  | none => .error .notImplemented

/-- Claim C5, counterexample: the `Client` class does not expose a single
operation; its body declares two methods, `send` and `apply_callback`. -/
theorem client_interface_not_single_operation : Client.methods ≠ ["send"] := by
  decide

/-- Claim C5, amended: the `Client` class declares exactly two operations,
`send(request)` and `apply_callback(callback, response)`, both abstract in the
base class (each raises `NotImplementedError` unless a subclass overrides
it); `send(request) -> response` is the transport operation. -/
theorem client_interface_two_operations
    (c : ClientImpl Req Resp γ) (request : Req) (callback : Resp → γ)
    (response : Resp) (hs : c.sendOv = none) (ha : c.applyCallbackOv = none) :
    Client.methods = ["send", "apply_callback"] ∧
    Client.methods.length = 2 ∧
    Client.send c request = .error .notImplemented ∧
    Client.apply_callback c callback response = .error .notImplemented := by
  refine ⟨rfl, rfl, ?_, ?_⟩ <;> simp [Client.send, Client.apply_callback, hs, ha]

/-- A `Client` subclass with no overrides, at concrete types. -/
def bareClient : ClientImpl Unit Unit Unit := ⟨none, none⟩

theorem client_interface_two_operations_witness :
    Client.methods = ["send", "apply_callback"] ∧
    Client.methods.length = 2 ∧
    Client.send bareClient () = .error .notImplemented ∧
    Client.apply_callback bareClient id () = .error .notImplemented :=
  client_interface_two_operations bareClient () id () rfl rfl

/-- Claim C6: calling `send` on the base `Client` raises
`NotImplementedError` for every request; a working transport must be supplied
by the embedding application via an override. -/
theorem client_base_send_not_implemented
    (c : ClientImpl Req Resp γ) (request : Req) (hs : c.sendOv = none) :
    Client.send c request = .error .notImplemented := by
  simp [Client.send, hs]

theorem client_base_send_not_implemented_witness :
    Client.send bareClient () = .error .notImplemented :=
  client_base_send_not_implemented bareClient () rfl

/-- The continuation methods the `InvokeCallback` class declares, paired with
the number of arguments each carries (beyond `self`): `on_success(result)`
carries the invocation's result, `on_failure(exc_type, exc_val, exc_tb)`
carries the exception triple. -/
def InvokeCallback.continuations : List (String × Nat) :=
  [("on_success", 1), ("on_failure", 3)]

/-- The continuation methods the `SleepCallback` class declares, paired with
the number of arguments each carries (beyond `self`): `on_success()` carries
no value, `on_failure(exc_type, exc_val, exc_tb)` carries the exception
triple. -/
def SleepCallback.continuations : List (String × Nat) :=
  [("on_success", 0), ("on_failure", 3)]

/-- The two suspension points `IOStrategy` exposes, paired with the callback
class each one's `callback` parameter is documented to take: `invoke` resumes
through an `InvokeCallback`, `sleep` through a `SleepCallback`. -/
def IOStrategy.suspensionPoints : List (String × String) :=
  [("invoke", "InvokeCallback"), ("sleep", "SleepCallback")]

/-- Claim C7: both suspension points (`invoke` and `sleep`) resume via a
callback with exactly two continuations; the invoke callback's `on_success`
carries one value (the result) and the sleep callback's `on_success` carries
none, while both `on_failure` continuations carry the three-part exception
triple. -/
theorem suspension_callbacks_have_two_continuations :
    IOStrategy.suspensionPoints.length = 2 ∧
    IOStrategy.suspensionPoints = [("invoke", "InvokeCallback"), ("sleep", "SleepCallback")] ∧
    InvokeCallback.continuations.length = 2 ∧
    SleepCallback.continuations.length = 2 ∧
    InvokeCallback.continuations.lookup "on_success" = some 1 ∧
    InvokeCallback.continuations.lookup "on_failure" = some 3 ∧
    SleepCallback.continuations.lookup "on_success" = some 0 ∧
    SleepCallback.continuations.lookup "on_failure" = some 3 := by
  decide

/-- A Python value as it flows through the argument-annotation layer of
`uplink/arguments.py`: either `None` or an (already stringly-converted)
value; `pystr` also stands in for opaque non-`None` values. -/
inductive PyVal where
  | pynone
  | pystr (s : String)
deriving DecidableEq, Repr

/-- Python `str()` on a `PyVal` (`None` prints as `"None"`). -/
def PyVal.pyStr : PyVal → String
  | .pynone => "None"
  | .pystr s => s

/-- The values `info["params"]` can hold: Python `None`, an already-encoded
query string (`str`), or an unencoded parameter mapping (`dict`, modelled as
an association list with unique keys). -/
inductive ParamsValue where
  | pvNone
  | pvStr (s : String)
  | pvMap (m : List (String × PyVal))
deriving DecidableEq, Repr

/-- `isinstance(existing, abc.Mapping)`: true exactly on the `dict` case. -/
def ParamsValue.isMapping : ParamsValue → Bool
  | .pvMap _ => true
  | _ => false

/-- Python `str()` on a params value (dicts render with braces; that case is
unreachable from `update_params`, whose guard rules out mappings on the
encoded path). -/
def ParamsValue.pyStr : ParamsValue → String
  | .pvNone => "None"
  | .pvStr s => s
  | .pvMap m =>
      "\x7b" ++ String.intercalate ", " (m.map fun kv => kv.1 ++ ": " ++ kv.2.pyStr)
        ++ "\x7d"

/-- `d[k] = v` on a Python dict modelled as an association list: overwrite in
place if the key exists, else append. -/
def dictSet (m : List (String × PyVal)) (k : String) (v : PyVal) :
    List (String × PyVal) :=
  if (m.lookup k).isSome then m.map fun kv => if kv.1 = k then (k, v) else kv
  else m ++ [(k, v)]

/-- `d.update(other)`: assign each key-value pair of `other` in order. -/
def dictUpdate (m new : List (String × PyVal)) : List (String × PyVal) :=
  new.foldl (fun acc kv => dictSet acc kv.1 kv.2) m

/-- The slice of a `RequestBuilder.info` dict that `uplink/arguments.py`
touches for the claims at hand: the `"params"` entry (`none` when the key is
absent) and the `"headers"` dict. -/
structure Info where
  params : Option ParamsValue
  headers : List (String × PyVal)
deriving DecidableEq, Repr

/-- `info.setdefault("params", dflt)`: returns the stored value if the key is
present, else stores and returns the default. -/
def Info.setdefaultParams (info : Info) (dflt : ParamsValue) : ParamsValue × Info :=
  match info.params with
  | some v => (v, info)
  | none => (dflt, { info with params := some dflt })

/-- The errors the annotation layer can raise here:
`Query.QueryStringEncodingError` ("Failed to join encoded and unencoded query
parameters."). -/
inductive AnnError where
  | queryStringEncodingError
deriving DecidableEq, Repr

/-- Embeds `Query._update_params(info, existing, new_params, encoded)`: on
the encoded path, join the stringified existing value (omitted if `None`)
with `"n=v"` pairs by `"&"`; on the unencoded path, `dict.update` the
existing mapping. The non-mapping unencoded case (where Python's
`info["params"].update` would raise `AttributeError`) is unreachable from
`update_params`, whose guard admits only mappings there; it is embedded as a
no-op. -/
def Query.update_params_aux (info : Info) (existing : ParamsValue)
    (new_params : List (String × PyVal)) (encoded : Bool) : Info :=
  if encoded then
    let params :=
      (match existing with
        | .pvNone => []
        | e => [e.pyStr]) ++ new_params.map fun kv => kv.1 ++ "=" ++ kv.2.pyStr
    { info with params := some (.pvStr (String.intercalate "&" params)) }
  else
    match existing with
    | .pvMap m => { info with params := some (.pvMap (dictUpdate m new_params)) }
    | _ => info

/-- Embeds `Query.update_params(info, new_params, encoded)`:
`existing = info.setdefault("params", None if encoded else {})`; raise
`Query.QueryStringEncodingError` when `encoded == isinstance(existing,
abc.Mapping)`; otherwise delegate to `Query._update_params`. -/
def Query.update_params (info : Info) (new_params : List (String × PyVal))
    (encoded : Bool) : Except AnnError Info :=
  let p := Info.setdefaultParams info (if encoded then .pvNone else .pvMap [])
  if encoded == p.1.isMapping then
    .error .queryStringEncodingError
  else
    .ok (Query.update_params_aux p.2 p.1 new_params encoded)

/-- Claim C9: `Query.update_params(info, new_params, encoded)` raises
`Query.QueryStringEncodingError` exactly when `info` already stores a
`"params"` value whose mapping-ness agrees with the `encoded` flag (`encoded`
true and the stored params an unencoded mapping, or `encoded` false and the
stored params not a mapping); in particular already-encoded and unencoded
parameters can never be mixed, and a fresh `info` never raises. -/
theorem query_update_params_raises_iff (info : Info)
    (new_params : List (String × PyVal)) (encoded : Bool) :
    Query.update_params info new_params encoded = .error .queryStringEncodingError ↔
      ∃ v, info.params = some v ∧ encoded = v.isMapping := by
  obtain ⟨params, headers⟩ := info
  cases params with
  | none =>
      cases encoded <;>
        simp [Query.update_params, Info.setdefaultParams, ParamsValue.isMapping]
  | some v =>
      cases encoded <;> cases v <;>
        simp [Query.update_params, Info.setdefaultParams, ParamsValue.isMapping]

theorem query_update_params_raises_iff_witness :
    Query.update_params ⟨some (.pvMap []), []⟩ [] true = .error .queryStringEncodingError ∧
    Query.update_params ⟨none, []⟩ [("a", .pystr "1")] false =
      .ok ⟨some (.pvMap [("a", .pystr "1")]), []⟩ :=
  ⟨(query_update_params_raises_iff ⟨some (.pvMap []), []⟩ [] true).mpr
      ⟨.pvMap [], rfl, rfl⟩,
    rfl⟩

/-- The converter keys of `uplink/converters/keys.py`: `CONVERT_TO_STRING`,
`CONVERT_TO_REQUEST_BODY`, `CONVERT_FROM_RESPONSE_BODY`, the composite
`Map`/`Sequence` wrappers, and `Identity`. -/
inductive ConverterKey where
  | convertToString
  | convertToRequestBody
  | convertFromResponseBody
  | map (k : ConverterKey)
  | sequence (k : ConverterKey)
  | identity
deriving DecidableEq, Repr

/-- The slice of a `RequestBuilder` the annotation layer touches: the `info`
dict and `get_converter(converter_key, argument_type)`, which may yield a
converter function or `None`. The argument type is an opaque tag. -/
structure RequestBuilder where
  info : Info
  getConverter : ConverterKey → Option String → Option (PyVal → PyVal)

/-- Embeds `ArgumentAnnotation.modify_request(request_builder, value)`: look
up a converter for `(converter_key, type)`, convert the value if a converter
was found, then run the subclass's `_modify_request` on the result. -/
def ArgAnnot.modify_request (converterKey : ConverterKey) (argType : Option String)
    (inner : RequestBuilder → PyVal → Except AnnError RequestBuilder)
    (b : RequestBuilder) (value : PyVal) : Except AnnError RequestBuilder :=
  let converter := b.getConverter converterKey argType
  let converted := match converter with | some f => f value | none => value
  inner b converted

/-- Embeds `EncodeNoneMixin.modify_request(request_builder, value)`: a `None`
value is dropped (the builder is returned untouched) when `_encode_none` is
unset, replaced by the `_encode_none` string otherwise; any other value goes
straight to `super().modify_request`. -/
def EncodeNoneMixin.modify_request (encodeNone : Option String)
    (superModify : RequestBuilder → PyVal → Except AnnError RequestBuilder)
    (b : RequestBuilder) (value : PyVal) : Except AnnError RequestBuilder :=
  match value with
  | .pynone =>
      match encodeNone with
      | none => .ok b
      | some s => superModify b (.pystr s)
  | v => superModify b v

/-- The `Query` annotation: `Query(name, encoded, type, encode_none)`. The
name is modelled as already resolved (the handler fills it in from the
argument name before any `modify_request` call). -/
structure Query where
  name : String
  encoded : Bool
  type : Option String
  encode_none : Option String
deriving DecidableEq, Repr

/-- `Query.converter_key`: `CONVERT_TO_STRING` when the parameter is already
encoded, else `Sequence(CONVERT_TO_STRING)`. -/
def Query.converter_key (q : Query) : ConverterKey :=
  if q.encoded then .convertToString else .sequence .convertToString

/-- Embeds `Query._modify_request`: update the builder's params with
`{self.name: value}` under the annotation's `encoded` flag. -/
def Query.modify_request_inner (q : Query) (b : RequestBuilder) (value : PyVal) :
    Except AnnError RequestBuilder :=
  (Query.update_params b.info [(q.name, value)] q.encoded).map
    fun i => { b with info := i }

/-- `Query.modify_request`, assembled along Python's MRO:
`EncodeNoneMixin.modify_request` wrapping `ArgumentAnnotation.modify_request`
wrapping `Query._modify_request`. -/
def Query.modify_request (q : Query) (b : RequestBuilder) (value : PyVal) :
    Except AnnError RequestBuilder :=
  EncodeNoneMixin.modify_request q.encode_none
    (ArgAnnot.modify_request q.converter_key q.type (Query.modify_request_inner q))
    b value

/-- The `Header` annotation: `Header(name, type)`. Its `_encode_none`
attribute comes from `EncodeNoneMixin` and stays `None` unless set on the
instance; it is carried here as a field so the mixin's dispatch on it can be
stated. -/
structure Header where
  name : String
  type : Option String
  encode_none : Option String
deriving DecidableEq, Repr

/-- `Header.converter_key`: `CONVERT_TO_STRING`. -/
def Header.converter_key : ConverterKey := .convertToString

/-- Embeds `Header._modify_request`:
`request_builder.info["headers"][self.name] = value`. -/
def Header.modify_request_inner (h : Header) (b : RequestBuilder) (value : PyVal) :
    Except AnnError RequestBuilder :=
  .ok { b with info := { b.info with headers := dictSet b.info.headers h.name value } }

/-- `Header.modify_request`, assembled along Python's MRO, like
`Query.modify_request`. -/
def Header.modify_request (h : Header) (b : RequestBuilder) (value : PyVal) :
    Except AnnError RequestBuilder :=
  EncodeNoneMixin.modify_request h.encode_none
    (ArgAnnot.modify_request Header.converter_key h.type (Header.modify_request_inner h))
    b value

/-- Claim C10: with no `encode_none` set, `Query.modify_request` and
`Header.modify_request` applied to `None` return the builder untouched (no
parameter or header is added); every non-`None` value takes the normal
convert-and-apply path; and with `encode_none` set, `None` is replaced by
that string before normal processing. -/
theorem encode_none_value_handling
    (q : Query) (h : Header) (b : RequestBuilder) (s sv : String)
    (hq : q.encode_none = none) (hh : h.encode_none = none) :
    Query.modify_request q b .pynone = .ok b ∧
    Header.modify_request h b .pynone = .ok b ∧
    Query.modify_request q b (.pystr sv) =
      ArgAnnot.modify_request q.converter_key q.type (Query.modify_request_inner q)
        b (.pystr sv) ∧
    Header.modify_request h b (.pystr sv) =
      ArgAnnot.modify_request Header.converter_key h.type (Header.modify_request_inner h)
        b (.pystr sv) ∧
    (∀ q2 : Query, q2.encode_none = some s →
      Query.modify_request q2 b .pynone =
        ArgAnnot.modify_request q2.converter_key q2.type (Query.modify_request_inner q2)
          b (.pystr s)) ∧
    (∀ h2 : Header, h2.encode_none = some s →
      Header.modify_request h2 b .pynone =
        ArgAnnot.modify_request Header.converter_key h2.type (Header.modify_request_inner h2)
          b (.pystr s)) := by
  refine ⟨?_, ?_, ?_, ?_, fun q2 hq2 => ?_, fun h2 hh2 => ?_⟩
  · simp [Query.modify_request, EncodeNoneMixin.modify_request, hq]
  · simp [Header.modify_request, EncodeNoneMixin.modify_request, hh]
  · simp [Query.modify_request, EncodeNoneMixin.modify_request]
  · simp [Header.modify_request, EncodeNoneMixin.modify_request]
  · simp [Query.modify_request, EncodeNoneMixin.modify_request, hq2]
  · simp [Header.modify_request, EncodeNoneMixin.modify_request, hh2]

/-- A builder whose registry yields no converter, with empty info. -/
def bareBuilder : RequestBuilder :=
  ⟨⟨none, []⟩, fun _ _ => none⟩

theorem encode_none_value_handling_witness :
    Query.modify_request ⟨"q", false, none, none⟩ bareBuilder .pynone = .ok bareBuilder ∧
    Header.modify_request ⟨"H", none, none⟩ bareBuilder .pynone = .ok bareBuilder ∧
    Query.modify_request ⟨"q", false, none, none⟩ bareBuilder (.pystr "v") =
      ArgAnnot.modify_request (Query.converter_key ⟨"q", false, none, none⟩) none
        (Query.modify_request_inner ⟨"q", false, none, none⟩) bareBuilder (.pystr "v") ∧
    Header.modify_request ⟨"H", none, none⟩ bareBuilder (.pystr "v") =
      ArgAnnot.modify_request Header.converter_key none
        (Header.modify_request_inner ⟨"H", none, none⟩) bareBuilder (.pystr "v") ∧
    (∀ q2 : Query, q2.encode_none = some "null" →
      Query.modify_request q2 bareBuilder .pynone =
        ArgAnnot.modify_request q2.converter_key q2.type (Query.modify_request_inner q2)
          bareBuilder (.pystr "null")) ∧
    (∀ h2 : Header, h2.encode_none = some "null" →
      Header.modify_request h2 bareBuilder .pynone =
        ArgAnnot.modify_request Header.converter_key h2.type
          (Header.modify_request_inner h2) bareBuilder (.pystr "null")) :=
  encode_none_value_handling ⟨"q", false, none, none⟩ ⟨"H", none, none⟩ bareBuilder
    "null" "v" rfl rfl

end Uplink
